import Mathlib

/-
  Shallow embedding of the terraform-provider-terraprobe probe core:
  the provider configuration defaults, the per-probe retry loops
  (HTTP, TCP, DNS, DB), their pass/fail assertion logic, and the
  test-suite aggregation, together with theorems settling the spec
  claims about them.

  Conventions:
  * Go `time.Duration` values are `Int` nanoseconds; `* time.Second`
    becomes `* nsPerSecond`, `/ time.Millisecond` becomes `/ nsPerMs`.
  * Nullable Terraform attributes (`types.Int64` / `types.String`
    with `IsNull`) are `Option Int` / `Option String`.
  * Network / SQL side effects are oracles: a function from the
    attempt index to the outcome the environment would produce for
    that attempt.  Retry loops additionally produce a trace of
    attempt and sleep events so that scheduling claims can be stated.
-/

namespace TerraProbe

/-- Nanoseconds per millisecond (Go `time.Millisecond`). -/
def nsPerMs : Int := 1000000

/-- Nanoseconds per second (Go `time.Second`). -/
def nsPerSecond : Int := 1000000000

/-- Provider-level client configuration (`TerraProbeClientConfig`):
the HTTP client carries the resolved default timeout. -/
structure TerraProbeClientConfig where
  httpClientTimeout : Int
  userAgent : String
  retries : Int
  retryDelay : Int
  deriving Repr, DecidableEq

/-- `TerraProbeProvider.Configure`: applies the provider-wide defaults
(30s timeout, 3 retries, 5s retry delay, standard user agent) when the
corresponding provider attribute is null. -/
def providerConfigure (defaultTimeout defaultRetries defaultRetryDelay : Option Int)
    (userAgent : Option String) : TerraProbeClientConfig :=
  { httpClientTimeout :=
      match defaultTimeout with
      | some t => t * nsPerSecond
      | none => 30 * nsPerSecond
    retries :=
      match defaultRetries with
      | some r => r
      | none => 3
    retryDelay :=
      match defaultRetryDelay with
      | some d => d * nsPerSecond
      | none => 5 * nsPerSecond
    userAgent :=
      match userAgent with
      | some ua => ua
      | none => "TerraProbe Terraform Provider" }

/-- The per-resource duration resolution pattern shared by every probe:
`x := providerVal; if !data.X.IsNull() && data.X.ValueInt64() > 0 { x =
time.Duration(v) * time.Second }`. -/
def resolveDuration (providerVal : Int) (resourceVal : Option Int) : Int :=
  match resourceVal with
  | some v => if v > 0 then v * nsPerSecond else providerVal
  | none => providerVal

/-- The per-resource retries resolution pattern shared by every probe:
`retries := providerVal; if !data.Retries.IsNull() &&
data.Retries.ValueInt64() > 0 { retries = data.Retries.ValueInt64() }`. -/
def resolveRetries (providerVal : Int) (resourceVal : Option Int) : Int :=
  match resourceVal with
  | some v => if v > 0 then v else providerVal
  | none => providerVal

/-! ### Test-suite aggregation (`TestSuiteResource`) -/

/-- Shared body of the four `evaluateXxxTests` helpers: a null or
unknown set contributes `(0, 0)`, otherwise the helper returns
`(len(testIds), len(testIds))` ("assume all tests pass"). -/
def evaluateTestSet (tests : Option (List String)) : Nat × Nat :=
  match tests with
  | none => (0, 0)
  | some ids => (ids.length, ids.length)

/-- `TestSuiteResource.evaluateHttpTests`. -/
def evaluateHttpTests (tests : Option (List String)) : Nat × Nat :=
  evaluateTestSet tests

/-- `TestSuiteResource.evaluateTcpTests`. -/
def evaluateTcpTests (tests : Option (List String)) : Nat × Nat :=
  evaluateTestSet tests

/-- `TestSuiteResource.evaluateDnsTests`. -/
def evaluateDnsTests (tests : Option (List String)) : Nat × Nat :=
  evaluateTestSet tests

/-- `TestSuiteResource.evaluateDbTests`. -/
def evaluateDbTests (tests : Option (List String)) : Nat × Nat :=
  evaluateTestSet tests

/-- Aggregate results stored by the suite resource. -/
structure SuiteResult where
  totalCount : Int
  passedCount : Int
  failedCount : Int
  allPassed : Bool
  failedTests : List String
  deriving Repr, DecidableEq

/-- The computation shared verbatim by `TestSuiteResource.Create`,
`Read` and `Update`: fan out to the four evaluate helpers, sum the
pairs, set `FailedCount = total - passed`,
`AllPassed = (passed == total && total > 0)`, and install the empty
failed-tests list. -/
def suiteComputeResults (httpTests tcpTests dnsTests dbTests : Option (List String)) :
    SuiteResult :=
  let hp := evaluateHttpTests httpTests
  let tp := evaluateTcpTests tcpTests
  let np := evaluateDnsTests dnsTests
  let bp := evaluateDbTests dbTests
  let totalTests : Int := (hp.2 : Int) + tp.2 + np.2 + bp.2
  let passedTests : Int := (hp.1 : Int) + tp.1 + np.1 + bp.1
  { totalCount := totalTests
    passedCount := passedTests
    failedCount := totalTests - passedTests
    allPassed := passedTests == totalTests && totalTests > 0
    failedTests := [] }

/-! ### The shared retry loop

Every probe runs the same Go loop shape:

```
for i := int64(0); i <= retries; i++ {
    <attempt i>
    if <attempt succeeded> { break }
    if i < retries { time.Sleep(retryDelay) }
}
```

`goRetryLoop act ok delay i fuel` runs it with `fuel` iterations left
(`fuel = retries + 1 - i`), recording a trace of attempt and sleep
events; the second component is the outcome of the attempt that ended
the loop (`none` when the loop body never ran, i.e. `retries < 0`, in
which case the Go locals keep their zero values). -/

/-- One event of a retry-loop execution. -/
inductive TraceEvent (α : Type) where
  | attempt (i : Nat) (a : α)
  | sleep (delay : Int)
  deriving Repr, DecidableEq

/-- Whether a trace event is an attempt (as opposed to a sleep). -/
def TraceEvent.isAttempt {α : Type} : TraceEvent α → Bool
  | .attempt _ _ => true
  | .sleep _ => false

/-- Number of attempts recorded in a trace. -/
def numAttempts {α : Type} (tr : List (TraceEvent α)) : Nat :=
  tr.countP fun e => e.isAttempt

/-- The Go retry loop: execute `act` at indices `i, i+1, ...` for at
most `fuel` iterations, stopping early at the first outcome accepted
by `ok`, sleeping `delay` between a rejected attempt and the next. -/
def goRetryLoop {α : Type} (act : Nat → α) (ok : α → Bool) (delay : Int)
    (i : Nat) : Nat → List (TraceEvent α) × Option α
  | 0 => ([], none)
  | Nat.succ m =>
    let a := act i
    if ok a then
      ([TraceEvent.attempt i a], some a)
    else
      match m with
      | 0 => ([TraceEvent.attempt i a], some a)
      | Nat.succ m1 =>
        let rest := goRetryLoop act ok delay (i + 1) (Nat.succ m1)
        (TraceEvent.attempt i a :: TraceEvent.sleep delay :: rest.1, rest.2)

/-- Shape of a trace produced by the retry loop, as the spec describes
it: the trace is a nonempty alternation of attempts and sleeps that
ends with an attempt (never a sleep), every sleep lasts exactly the
configured delay and separates a failed attempt from the next attempt,
and every attempt other than the final one failed (the loop stops
immediately on the first success). -/
inductive RetryTrace {α : Type} (ok : α → Bool) (delay : Int) :
    List (TraceEvent α) → Prop
  | last (i : Nat) (a : α) : RetryTrace ok delay [TraceEvent.attempt i a]
  | cons (i : Nat) (a : α) (tr : List (TraceEvent α)) (hfail : ok a = false)
      (htr : RetryTrace ok delay tr) :
      RetryTrace ok delay (TraceEvent.attempt i a :: TraceEvent.sleep delay :: tr)


/-! ### TCP probe (`TcpTestResource`) -/

/-- Declared attributes of a `terraprobe_tcp_test` resource. -/
structure TcpTestConfig where
  host : String
  port : Int
  timeout : Option Int
  retries : Option Int
  retryDelay : Option Int
  deriving Repr, DecidableEq

/-- Environment outcome of one `net.DialTimeout` attempt: the dial
error, if any, and the wall-clock duration `time.Since(start)`
measured around the dial. -/
structure TcpDialAttempt where
  dialErr : Option String
  connectTime : Int
  deriving Repr, DecidableEq

/-- Result attributes written by the TCP probe. -/
structure TcpResult where
  testPassed : Bool
  error : String
  lastConnectTime : Int
  deriving Repr, DecidableEq

/-- The resolved per-attempt timeout of `TcpTestResource.runTest`:
the provider HTTP client timeout unless the resource sets a positive
`timeout` (seconds). -/
def tcpResolvedTimeout (cfg : TerraProbeClientConfig) (data : TcpTestConfig) : Int :=
  resolveDuration cfg.httpClientTimeout data.timeout

/-- The retry loop of `TcpTestResource.runTest`: repeat
`net.DialTimeout` until a dial succeeds, under the resolved retries
and retry delay. -/
def tcpRun (cfg : TerraProbeClientConfig) (data : TcpTestConfig)
    (dial : Nat → TcpDialAttempt) : List (TraceEvent TcpDialAttempt) × Option TcpDialAttempt :=
  goRetryLoop dial (fun a => a.dialErr.isNone)
    (resolveDuration cfg.retryDelay data.retryDelay) 0
    (resolveRetries cfg.retries data.retries + 1).toNat

/-- The code after the TCP retry loop: on a dial error record
`passed=false` with a zero connect time; on success record the
attempt's connect time in milliseconds. -/
def tcpFinish (a : TcpDialAttempt) : TcpResult :=
  match a.dialErr with
  | some e =>
    { testPassed := false
      error := "TCP connection failed: " ++ e
      lastConnectTime := 0 }
  | none =>
    { testPassed := true
      error := ""
      lastConnectTime := a.connectTime / nsPerMs }

/-- `TcpTestResource.runTest`: dial with retries, then record results
from the attempt that ended the loop.  Returns the loop trace together
with the updated result attributes. -/
def TcpTestResource.runTest (cfg : TerraProbeClientConfig) (data : TcpTestConfig)
    (dial : Nat → TcpDialAttempt) : List (TraceEvent TcpDialAttempt) × TcpResult :=
  let run := tcpRun cfg data dial
  let outcome : TcpDialAttempt :=
    match run.2 with
    | none =>
      -- `retries < 0`: the loop body never runs, `err` stays nil and
      -- `connectTime` stays zero, so the success branch executes.
      { dialErr := none, connectTime := 0 }
    | some a => a
  (run.1, tcpFinish outcome)

/-! ### HTTP probe (`HttpTestResource`) -/

/-- Go `strings.Contains`: `needle` occurs as a substring of `hay`
(the empty needle always occurs). -/
def strContains (hay needle : String) : Bool :=
  needle == "" || (hay.splitOn needle).length > 1

/-- Declared attributes of a `terraprobe_http_test` resource. -/
structure HttpTestConfig where
  url : String
  method : Option String
  headers : List (String × String)
  body : Option String
  timeout : Option Int
  retries : Option Int
  retryDelay : Option Int
  expectStatusCode : Option Int
  expectContains : Option String
  deriving Repr, DecidableEq

/-- Environment outcome of one `client.Do` attempt: the transport
error, if any; on transport success the response status, the outcome
`io.ReadAll` would produce for this response's body; and the measured
duration `time.Since(start)` of the attempt. -/
structure HttpAttempt where
  respErr : Option String
  status : Int
  bodyReadErr : Option String
  body : String
  responseTime : Int
  deriving Repr, DecidableEq

/-- Result attributes written by the HTTP probe. -/
structure HttpResult where
  testPassed : Bool
  error : String
  lastResponseTime : Int
  lastStatusCode : Int
  lastResponseBody : String
  deriving Repr, DecidableEq

/-- The resolved per-attempt timeout of `HttpTestResource.runTest`:
the provider HTTP client timeout unless the resource sets a positive
`timeout` (seconds). -/
def httpResolvedTimeout (cfg : TerraProbeClientConfig) (data : HttpTestConfig) : Int :=
  resolveDuration cfg.httpClientTimeout data.timeout

/-- The retry loop of `HttpTestResource.runTest`: repeat `client.Do`
until the transport succeeds, under the resolved retries and retry
delay. -/
def httpRun (cfg : TerraProbeClientConfig) (data : HttpTestConfig)
    (attempt : Nat → HttpAttempt) : List (TraceEvent HttpAttempt) × Option HttpAttempt :=
  goRetryLoop attempt (fun a => a.respErr.isNone)
    (resolveDuration cfg.retryDelay data.retryDelay) 0
    (resolveRetries cfg.retries data.retries + 1).toNat

/-- The expected status code of the HTTP assertion: the declared
`expect_status_code`, or 200 when null. -/
def httpExpectedStatus (data : HttpTestConfig) : Int :=
  match data.expectStatusCode with
  | some v => v
  | none => 200

/-- Whether the status-code assertion fires: the response status
differs from the expected status (this check always applies). -/
def httpStatusFail (data : HttpTestConfig) (a : HttpAttempt) : Bool :=
  a.status != httpExpectedStatus data

/-- Whether the substring assertion fires: a nonempty
`expect_contains` is configured and the response body does not contain
it (a null or empty expectation never fires). -/
def httpContainsFail (data : HttpTestConfig) (a : HttpAttempt) : Bool :=
  match data.expectContains with
  | some s => s != "" && !(strContains a.body s)
  | none => false

/-- The error-message clause appended by the status-code assertion. -/
def httpStatusClause (data : HttpTestConfig) (a : HttpAttempt) : String :=
  if httpStatusFail data a then
    "Expected status code " ++ toString (httpExpectedStatus data) ++
      " but got " ++ toString a.status ++ ". "
  else ""

/-- The error-message clause appended by the substring assertion. -/
def httpContainsClause (data : HttpTestConfig) (a : HttpAttempt) : String :=
  match data.expectContains with
  | some s =>
    if s != "" && !(strContains a.body s) then
      "Response body does not contain \x27" ++ s ++ "\x27. "
    else ""
  | none => ""

/-- The code after the HTTP retry loop, for the attempt `a` that ended
the loop: a transport error records `passed=false` with zeroed result
fields; otherwise the body is read (a read error records
`passed=false`); otherwise the status-code assertion (against
`expect_status_code`, default 200) and the substring assertion
(against a configured nonempty `expect_contains`) are evaluated
independently, each appending its own clause to the error message. -/
def httpFinish (data : HttpTestConfig) (a : HttpAttempt) : HttpResult :=
  match a.respErr with
  | some e =>
    { testPassed := false
      error := "Request failed: " ++ e
      lastResponseTime := 0
      lastStatusCode := 0
      lastResponseBody := "" }
  | none =>
    match a.bodyReadErr with
    | some e =>
      { testPassed := false
        error := "Failed to read response body: " ++ e
        lastResponseTime := a.responseTime / nsPerMs
        lastStatusCode := a.status
        lastResponseBody := "" }
    | none =>
      let passed := !httpStatusFail data a && !httpContainsFail data a
      { testPassed := passed
        error :=
          if passed then ""
          else httpStatusClause data a ++ httpContainsClause data a
        lastResponseTime := a.responseTime / nsPerMs
        lastStatusCode := a.status
        lastResponseBody := a.body }

/-- `HttpTestResource.runTest`.  `reqErr` is the outcome of
`http.NewRequestWithContext` (request construction); the retry loop
repeats `client.Do` until the transport succeeds; the response body is
read once, after the loop; then the status-code and substring
assertions are evaluated.  The result is `none` only on the
`retries < 0` path, where the Go code dereferences a nil response. -/
def HttpTestResource.runTest (cfg : TerraProbeClientConfig) (data : HttpTestConfig)
    (reqErr : Option String) (attempt : Nat → HttpAttempt) (prior : HttpResult) :
    Option (List (TraceEvent HttpAttempt) × HttpResult) :=
  match reqErr with
  | some e =>
    some ([],
      { prior with
          error := "Failed to create request: " ++ e
          testPassed := false })
  | none =>
    let run := httpRun cfg data attempt
    match run.2 with
    | none => none
    | some a => some (run.1, httpFinish data a)

/-! ### DNS probe (`DnsTestResource`) -/

/-- Declared attributes of a `terraprobe_dns_test` resource. -/
structure DnsTestConfig where
  hostname : String
  recordType : String
  expectResult : Option String
  resolver : Option String
  timeout : Option Int
  retries : Option Int
  retryDelay : Option Int
  deriving Repr, DecidableEq

/-- Environment outcome of one lookup attempt for a supported record
type: the lookup error, if any; on success the records already
converted to their string representations (A/AAAA as IP strings, MX as
"pref host", CNAME as a one-element list, plain strings for TXT/NS);
and the measured duration `time.Since(start)` of the attempt. -/
structure DnsLookupAttempt where
  lookupErr : Option String
  records : List String
  elapsed : Int
  deriving Repr, DecidableEq

/-- Record types handled by the switch in `DnsTestResource.runTest`. -/
def supportedRecordTypes : List String := ["A", "AAAA", "CNAME", "MX", "TXT", "NS"]

/-- One iteration of the DNS lookup switch: a supported record type
consults the resolver, the default case produces the
unsupported-record-type error without any lookup (the duration is the
measured time around the switch either way). -/
def dnsAttempt (recordType : String) (lookup : Nat → DnsLookupAttempt) (i : Nat) :
    DnsLookupAttempt :=
  if recordType ∈ supportedRecordTypes then
    lookup i
  else
    { lookupErr := some ("unsupported DNS record type: " ++ recordType)
      records := []
      elapsed := (lookup i).elapsed }

/-- Result attributes written by the DNS probe. -/
structure DnsResult where
  testPassed : Bool
  error : String
  lastResultTime : Int
  lastResult : String
  deriving Repr, DecidableEq

/-- The resolved per-attempt timeout of `DnsTestResource.runTest`: a
hardcoded 5 seconds unless the resource sets a positive `timeout`
(seconds); the provider default is not consulted. -/
def dnsResolvedTimeout (data : DnsTestConfig) : Int :=
  resolveDuration (5 * nsPerSecond) data.timeout

/-- The retry loop of `DnsTestResource.runTest`: repeat the
record-type lookup switch until a lookup succeeds, under the resolved
retries and retry delay. -/
def dnsRun (cfg : TerraProbeClientConfig) (data : DnsTestConfig)
    (lookup : Nat → DnsLookupAttempt) :
    List (TraceEvent DnsLookupAttempt) × Option DnsLookupAttempt :=
  goRetryLoop (dnsAttempt data.recordType lookup) (fun a => a.lookupErr.isNone)
    (resolveDuration cfg.retryDelay data.retryDelay) 0
    (resolveRetries cfg.retries data.retries + 1).toNat

/-- The code after the DNS retry loop, for the lookup outcome that
ended it: a lookup error records `passed=false` with the attempt's
duration; on success the records are joined with ", ", and when a
nonempty expected value is configured `passed` requires an exact match
against some record. -/
def dnsFinish (data : DnsTestConfig) (outcome : DnsLookupAttempt) : DnsResult :=
  match outcome.lookupErr with
  | some e =>
    { testPassed := false
      error := "DNS lookup failed: " ++ e
      lastResultTime := outcome.elapsed / nsPerMs
      lastResult := "" }
  | none =>
    let resultStr := String.intercalate ", " outcome.records
    let passFail : Bool × String :=
      match data.expectResult with
      | some expectResult =>
        if expectResult != "" then
          if outcome.records.contains expectResult then
            (true, "")
          else
            (false,
              "Expected result \x27" ++ expectResult ++ "\x27 not found in DNS response")
        else (true, "")
      | none => (true, "")
    { testPassed := passFail.1
      error := if passFail.1 then "" else passFail.2
      lastResultTime := outcome.elapsed / nsPerMs
      lastResult := resultStr }

/-- `DnsTestResource.runTest`: look up with retries, then record
results from the lookup outcome that ended the loop. -/
def DnsTestResource.runTest (cfg : TerraProbeClientConfig) (data : DnsTestConfig)
    (lookup : Nat → DnsLookupAttempt) : List (TraceEvent DnsLookupAttempt) × DnsResult :=
  let run := dnsRun cfg data lookup
  let outcome : DnsLookupAttempt :=
    match run.2 with
    | none =>
      -- `retries < 0`: the loop body never runs; `lookupErr` stays
      -- nil, `result` stays empty and `responseTime` stays zero.
      { lookupErr := none, records := [], elapsed := 0 }
    | some a => a
  (run.1, dnsFinish data outcome)

/-! ### DB probe (`DbTestResource`) -/

/-- Declared attributes of a `terraprobe_db_test` resource. -/
structure DbTestConfig where
  dbType : String
  host : String
  port : Int
  username : String
  password : String
  database : String
  sslMode : String
  query : String
  timeout : Option Int
  retries : Option Int
  retryDelay : Option Int
  maxLifetime : Option Int
  maxIdleConn : Option Int
  maxOpenConn : Option Int
  deriving Repr, DecidableEq

/-- Environment outcome of one DB iteration, stage by stage:
`sql.Open`, `PingContext`, `QueryContext` (with its measured
duration), row iteration (`rows.Next` count and `rows.Err`).  A later
stage is only reached when every earlier stage succeeded. -/
structure DbAttempt where
  openErr : Option String
  pingErr : Option String
  queryErr : Option String
  queryTime : Int
  rowCount : Int
  rowErr : Option String
  deriving Repr, DecidableEq

/-- The first error produced by an iteration's stages, if any; the
iteration succeeds exactly when this is `none`. -/
def DbAttempt.failure (a : DbAttempt) : Option String :=
  match a.openErr with
  | some e => some e
  | none =>
    match a.pingErr with
    | some e => some e
    | none =>
      match a.queryErr with
      | some e => some e
      | none => a.rowErr

/-- Result attributes written by the DB probe. -/
structure DbResult where
  testPassed : Bool
  error : String
  lastQueryTime : Int
  lastResultRows : Int
  deriving Repr, DecidableEq

/-- The resolved per-operation timeout of `DbTestResource.runTest`: a
hardcoded 10 seconds unless the resource sets a positive `timeout`
(seconds); the provider default is not consulted. -/
def dbResolvedTimeout (data : DbTestConfig) : Int :=
  resolveDuration (10 * nsPerSecond) data.timeout

/-- The engine-specific connection string of `DbTestResource.runTest`;
any engine other than mysql or postgres is an immediate hard error. -/
def dbConnString (data : DbTestConfig) : Except String String :=
  if data.dbType == "mysql" then
    Except.ok (data.username ++ ":" ++ data.password ++ "@tcp(" ++ data.host ++ ":" ++
      toString data.port ++ ")/" ++ data.database)
  else if data.dbType == "postgres" then
    Except.ok ("host=" ++ data.host ++ " port=" ++ toString data.port ++ " user=" ++
      data.username ++ " password=" ++ data.password ++ " dbname=" ++ data.database ++
      " sslmode=" ++ data.sslMode)
  else
    Except.error ("unsupported database type: " ++ data.dbType)

/-- The retry loop of `DbTestResource.runTest`: repeat the
open → ping → query → row-iteration sequence until an iteration
completes without error, under the resolved retries and retry delay
(each failing stage applies the same sleep-then-retry policy). -/
def dbRun (cfg : TerraProbeClientConfig) (data : DbTestConfig)
    (attempt : Nat → DbAttempt) : List (TraceEvent DbAttempt) × Option DbAttempt :=
  goRetryLoop attempt (fun a => a.failure.isNone)
    (resolveDuration cfg.retryDelay data.retryDelay) 0
    (resolveRetries cfg.retries data.retries + 1).toNat

/-- The code after the DB retry loop, for the iteration outcome that
ended it: a stage error records `passed=false` with a zero query time
and row count; success records the iteration's query duration
(milliseconds) and row count. -/
def dbFinish (a : DbAttempt) : DbResult :=
  match a.failure with
  | some e =>
    { testPassed := false
      error := "Database test failed: " ++ e
      lastQueryTime := 0
      lastResultRows := 0 }
  | none =>
    { testPassed := true
      error := ""
      lastQueryTime := a.queryTime / nsPerMs
      lastResultRows := a.rowCount }

/-- `DbTestResource.runTest`: an unsupported engine type aborts
immediately with a hard error, before any attempt.  Otherwise each
iteration runs open → pool tuning → ping → query → row iteration; a
failure at any stage sleeps and retries under the same policy as the
other probes, and after exhaustion records `passed=false` with a zero
query time and row count; success records the successful iteration's
query duration (milliseconds) and row count. -/
def DbTestResource.runTest (cfg : TerraProbeClientConfig) (data : DbTestConfig)
    (attempt : Nat → DbAttempt) :
    Except String (List (TraceEvent DbAttempt) × DbResult) :=
  match dbConnString data with
  | Except.error e => Except.error e
  | Except.ok _ =>
    let run := dbRun cfg data attempt
    let outcome : DbAttempt :=
      match run.2 with
      | none =>
        -- `retries < 0`: the loop body never runs; `openErr` stays nil,
        -- `queryTime` and `rowCount` stay zero, so the success branch runs.
        { openErr := none, pingErr := none, queryErr := none
          queryTime := 0, rowCount := 0, rowErr := none }
      | some a => a
    Except.ok (run.1, dbFinish outcome)

/-! ### Concrete test fixtures

Concrete configurations and environment oracles used to exercise the
theorems on closed inputs. -/

/-- The client configuration of an unconfigured provider block: 30s
timeout, 3 retries, 5s retry delay. -/
def cfgDefault : TerraProbeClientConfig := providerConfigure none none none none

def tcpDataW : TcpTestConfig :=
  { host := "localhost", port := 8080
    timeout := none, retries := none, retryDelay := none }

def httpDataW : HttpTestConfig :=
  { url := "http://localhost/health", method := none, headers := [], body := none
    timeout := none, retries := none, retryDelay := none
    expectStatusCode := none, expectContains := none }

def httpPriorW : HttpResult :=
  { testPassed := false, error := "", lastResponseTime := 0
    lastStatusCode := 0, lastResponseBody := "" }

def dnsDataW : DnsTestConfig :=
  { hostname := "example.com", recordType := "A", expectResult := none
    resolver := none, timeout := none, retries := none, retryDelay := none }

def dbDataW : DbTestConfig :=
  { dbType := "postgres", host := "localhost", port := 5432
    username := "postgres", password := "pw", database := "mydb"
    sslMode := "disable", query := "SELECT 1"
    timeout := none, retries := none, retryDelay := none
    maxLifetime := none, maxIdleConn := none, maxOpenConn := none }

/-- A dial that always succeeds in 12ms. -/
def tcpDialOk : Nat → TcpDialAttempt :=
  fun _ => { dialErr := none, connectTime := 12 * nsPerMs }

/-- A dial that is always refused after 7ms. -/
def tcpDialRefused : Nat → TcpDialAttempt :=
  fun _ => { dialErr := some "connection refused", connectTime := 7 * nsPerMs }

/-- An HTTP attempt that succeeds with status 200 and a readable body. -/
def httpAttemptOk : Nat → HttpAttempt :=
  fun _ =>
    { respErr := none, status := 200, bodyReadErr := none
      body := "service ok", responseTime := 25 * nsPerMs }

/-- An HTTP attempt whose transport succeeds but whose body read fails. -/
def httpAttemptBodyFail : Nat → HttpAttempt :=
  fun _ =>
    { respErr := none, status := 200, bodyReadErr := some "unexpected EOF"
      body := "", responseTime := 25 * nsPerMs }

/-- A DNS lookup that succeeds with one A record. -/
def dnsLookupOk : Nat → DnsLookupAttempt :=
  fun _ => { lookupErr := none, records := ["93.184.216.34"], elapsed := 3 * nsPerMs }

/-- A DNS lookup that returns without error but with no records. -/
def dnsLookupEmptyOk : Nat → DnsLookupAttempt :=
  fun _ => { lookupErr := none, records := [], elapsed := 3 * nsPerMs }

/-- A DNS lookup that always fails after 6ms. -/
def dnsLookupFail : Nat → DnsLookupAttempt :=
  fun _ => { lookupErr := some "no such host", records := [], elapsed := 6 * nsPerMs }

/-- A DB iteration that succeeds with one row in 4ms. -/
def dbAttemptOk : Nat → DbAttempt :=
  fun _ =>
    { openErr := none, pingErr := none, queryErr := none
      queryTime := 4 * nsPerMs, rowCount := 1, rowErr := none }

/-- A DB iteration that always fails at the ping stage. -/
def dbAttemptPingFail : Nat → DbAttempt :=
  fun _ =>
    { openErr := none, pingErr := some "connection refused", queryErr := none
      queryTime := 0, rowCount := 0, rowErr := none }

/-! ### Retry-loop lemmas -/

@[simp]
theorem numAttempts_nil {α : Type} : numAttempts ([] : List (TraceEvent α)) = 0 := rfl

@[simp]
theorem numAttempts_cons_attempt {α : Type} (i : Nat) (a : α) (tr : List (TraceEvent α)) :
    numAttempts (TraceEvent.attempt i a :: tr) = numAttempts tr + 1 := by
  simp [numAttempts, List.countP_cons, TraceEvent.isAttempt]

@[simp]
theorem numAttempts_cons_sleep {α : Type} (d : Int) (tr : List (TraceEvent α)) :
    numAttempts (TraceEvent.sleep d :: tr) = numAttempts tr := by
  simp [numAttempts, List.countP_cons, TraceEvent.isAttempt]

theorem goRetryLoop_zero {α : Type} (act : Nat → α) (ok : α → Bool) (delay : Int)
    (i : Nat) : goRetryLoop act ok delay i 0 = ([], none) := rfl

theorem goRetryLoop_succ_ok {α : Type} (act : Nat → α) (ok : α → Bool) (delay : Int)
    (i m : Nat) (h : ok (act i) = true) :
    goRetryLoop act ok delay i (Nat.succ m) =
      ([TraceEvent.attempt i (act i)], some (act i)) := by
  cases m <;> simp [goRetryLoop, h]

theorem goRetryLoop_one_fail {α : Type} (act : Nat → α) (ok : α → Bool) (delay : Int)
    (i : Nat) (h : ok (act i) = false) :
    goRetryLoop act ok delay i 1 = ([TraceEvent.attempt i (act i)], some (act i)) := by
  simp [goRetryLoop, h]

theorem goRetryLoop_succ_succ_fail {α : Type} (act : Nat → α) (ok : α → Bool)
    (delay : Int) (i m : Nat) (h : ok (act i) = false) :
    goRetryLoop act ok delay i (Nat.succ (Nat.succ m)) =
      (TraceEvent.attempt i (act i) :: TraceEvent.sleep delay ::
        (goRetryLoop act ok delay (i + 1) (Nat.succ m)).1,
       (goRetryLoop act ok delay (i + 1) (Nat.succ m)).2) := by
  simp [goRetryLoop, h]

/-- The loop makes at most `fuel` attempts. -/
theorem numAttempts_goRetryLoop_le {α : Type} (act : Nat → α) (ok : α → Bool)
    (delay : Int) : ∀ (fuel i : Nat),
    numAttempts (goRetryLoop act ok delay i fuel).1 ≤ fuel := by
  intro fuel
  induction fuel with
  | zero => intro i; simp [goRetryLoop_zero]
  | succ m ih =>
    intro i
    by_cases h : ok (act i) = true
    · rw [goRetryLoop_succ_ok act ok delay i m h]
      simp
    · replace h : ok (act i) = false := by simpa using h
      cases m with
      | zero =>
        rw [goRetryLoop_one_fail act ok delay i h]
        simp
      | succ m1 =>
        rw [goRetryLoop_succ_succ_fail act ok delay i m1 h]
        have := ih (i + 1)
        simp only [numAttempts_cons_attempt, numAttempts_cons_sleep,
          Nat.succ_eq_add_one] at this ⊢
        omega

/-- If the first attempt succeeds the loop makes exactly that one
attempt, with no sleep. -/
theorem goRetryLoop_first_ok {α : Type} (act : Nat → α) (ok : α → Bool) (delay : Int)
    (i m : Nat) (h : ok (act i) = true) :
    (goRetryLoop act ok delay i (Nat.succ m)).1 = [TraceEvent.attempt i (act i)] := by
  rw [goRetryLoop_succ_ok act ok delay i m h]

/-- A nonempty run of the loop produces a well-formed retry trace. -/
theorem goRetryLoop_retryTrace {α : Type} (act : Nat → α) (ok : α → Bool)
    (delay : Int) : ∀ (m i : Nat),
    RetryTrace ok delay (goRetryLoop act ok delay i (Nat.succ m)).1 := by
  intro m
  induction m with
  | zero =>
    intro i
    by_cases h : ok (act i) = true
    · rw [goRetryLoop_succ_ok act ok delay i 0 h]
      exact RetryTrace.last i (act i)
    · replace h : ok (act i) = false := by simpa using h
      rw [goRetryLoop_one_fail act ok delay i h]
      exact RetryTrace.last i (act i)
  | succ m1 ih =>
    intro i
    by_cases h : ok (act i) = true
    · rw [goRetryLoop_succ_ok act ok delay i (Nat.succ m1) h]
      exact RetryTrace.last i (act i)
    · replace h : ok (act i) = false := by simpa using h
      rw [goRetryLoop_succ_succ_fail act ok delay i m1 h]
      exact RetryTrace.cons i (act i) _ h (ih (i + 1))

/-- A nonempty run of the loop always ends with some attempt's outcome. -/
theorem goRetryLoop_outcome_isSome {α : Type} (act : Nat → α) (ok : α → Bool)
    (delay : Int) : ∀ (m i : Nat),
    ((goRetryLoop act ok delay i (Nat.succ m)).2).isSome = true := by
  intro m
  induction m with
  | zero =>
    intro i
    by_cases h : ok (act i) = true
    · rw [goRetryLoop_succ_ok act ok delay i 0 h]; rfl
    · replace h : ok (act i) = false := by simpa using h
      rw [goRetryLoop_one_fail act ok delay i h]; rfl
  | succ m1 ih =>
    intro i
    by_cases h : ok (act i) = true
    · rw [goRetryLoop_succ_ok act ok delay i (Nat.succ m1) h]; rfl
    · replace h : ok (act i) = false := by simpa using h
      rw [goRetryLoop_succ_succ_fail act ok delay i m1 h]
      exact ih (i + 1)

/-- The loop's final outcome is some attempt of the action. -/
theorem goRetryLoop_outcome_mem {α : Type} (act : Nat → α) (ok : α → Bool)
    (delay : Int) : ∀ (fuel i : Nat) (a : α),
    (goRetryLoop act ok delay i fuel).2 = some a → ∃ k, a = act k := by
  intro fuel
  induction fuel with
  | zero => intro i a h; simp [goRetryLoop_zero] at h
  | succ m ih =>
    intro i a h
    by_cases hok : ok (act i) = true
    · rw [goRetryLoop_succ_ok act ok delay i m hok] at h
      exact ⟨i, by simpa using h.symm⟩
    · replace hok : ok (act i) = false := by simpa using hok
      cases m with
      | zero =>
        rw [goRetryLoop_one_fail act ok delay i hok] at h
        exact ⟨i, by simpa using h.symm⟩
      | succ m1 =>
        rw [goRetryLoop_succ_succ_fail act ok delay i m1 hok] at h
        exact ih (i + 1) a h

/-- When every attempt fails the loop exhausts its fuel: exactly
`fuel` attempts are made. -/
theorem goRetryLoop_allFail_numAttempts {α : Type} (act : Nat → α) (ok : α → Bool)
    (delay : Int) (hall : ∀ j, ok (act j) = false) : ∀ (fuel i : Nat),
    numAttempts (goRetryLoop act ok delay i fuel).1 = fuel := by
  intro fuel
  induction fuel with
  | zero => intro i; simp [goRetryLoop_zero]
  | succ m ih =>
    intro i
    cases m with
    | zero =>
      rw [goRetryLoop_one_fail act ok delay i (hall i)]
      simp
    | succ m1 =>
      rw [goRetryLoop_succ_succ_fail act ok delay i m1 (hall i)]
      simp [ih (i + 1)]

/-! ### Per-probe bridging lemmas -/

theorem tcpRunTest_trace (cfg : TerraProbeClientConfig) (data : TcpTestConfig)
    (dial : Nat → TcpDialAttempt) :
    (TcpTestResource.runTest cfg data dial).1 = (tcpRun cfg data dial).1 := rfl

theorem tcpRunTest_eq (cfg : TerraProbeClientConfig) (data : TcpTestConfig)
    (dial : Nat → TcpDialAttempt) (a : TcpDialAttempt)
    (h : (tcpRun cfg data dial).2 = some a) :
    TcpTestResource.runTest cfg data dial = ((tcpRun cfg data dial).1, tcpFinish a) := by
  simp only [TcpTestResource.runTest, h]

theorem httpRunTest_eq (cfg : TerraProbeClientConfig) (data : HttpTestConfig)
    (attempt : Nat → HttpAttempt) (prior : HttpResult) (a : HttpAttempt)
    (h : (httpRun cfg data attempt).2 = some a) :
    HttpTestResource.runTest cfg data none attempt prior =
      some ((httpRun cfg data attempt).1, httpFinish data a) := by
  simp only [HttpTestResource.runTest, h]

theorem httpRunTest_none (cfg : TerraProbeClientConfig) (data : HttpTestConfig)
    (attempt : Nat → HttpAttempt) (prior : HttpResult)
    (h : (httpRun cfg data attempt).2 = none) :
    HttpTestResource.runTest cfg data none attempt prior = none := by
  simp only [HttpTestResource.runTest, h]

theorem dnsRunTest_trace (cfg : TerraProbeClientConfig) (data : DnsTestConfig)
    (lookup : Nat → DnsLookupAttempt) :
    (DnsTestResource.runTest cfg data lookup).1 = (dnsRun cfg data lookup).1 := rfl

theorem dnsRunTest_eq (cfg : TerraProbeClientConfig) (data : DnsTestConfig)
    (lookup : Nat → DnsLookupAttempt) (a : DnsLookupAttempt)
    (h : (dnsRun cfg data lookup).2 = some a) :
    DnsTestResource.runTest cfg data lookup =
      ((dnsRun cfg data lookup).1, dnsFinish data a) := by
  simp only [DnsTestResource.runTest, h]

theorem dbRunTest_eq (cfg : TerraProbeClientConfig) (data : DbTestConfig)
    (attempt : Nat → DbAttempt) (cs : String) (a : DbAttempt)
    (hconn : dbConnString data = Except.ok cs)
    (h : (dbRun cfg data attempt).2 = some a) :
    DbTestResource.runTest cfg data attempt =
      Except.ok ((dbRun cfg data attempt).1, dbFinish a) := by
  simp only [DbTestResource.runTest, hconn, h]

/-- With a nonnegative resolved retries value the loop fuel
`(retries+1).toNat` is a successor and casts back to `retries + 1`. -/
theorem retries_fuel (r : Int) (hr : 0 ≤ r) :
    (r + 1).toNat = Nat.succ ((r + 1).toNat - 1) ∧ (((r + 1).toNat : Nat) : Int) = r + 1 := by
  omega

/-! ### Claim theorems -/

/-- C1: the test-suite aggregation is a stub.  Evaluating the shared
Create/Read/Update computation on a suite referencing two HTTP probes
and one TCP probe yields passed=3, failed=0, allPassed=true and an
empty failed-tests list, regardless of any referenced probe's stored
result — diverging from the claimed passed=2 / failed=1 /
allPassed=false / failed-list=[failing id] whenever one of the
referenced probes' last result was a failure. -/
theorem suite_stub_reports_all_passed :
    suiteComputeResults (some ["http-a", "http-b"]) (some ["tcp-a"]) none none =
      { totalCount := 3, passedCount := 3, failedCount := 0
        allPassed := true, failedTests := [] } := by
  decide

/-- C10: a suite whose four reference sets are all null or empty
reports total=0 and allPassed=false. -/
theorem suite_zero_references (a b c d : Option (List String))
    (ha : a = none ∨ a = some []) (hb : b = none ∨ b = some [])
    (hc : c = none ∨ c = some []) (hd : d = none ∨ d = some []) :
    (suiteComputeResults a b c d).totalCount = 0 ∧
    (suiteComputeResults a b c d).allPassed = false := by
  rcases ha with rfl | rfl <;> rcases hb with rfl | rfl <;>
    rcases hc with rfl | rfl <;> rcases hd with rfl | rfl <;> decide

theorem suite_zero_references_witness :
    (suiteComputeResults none none none none).totalCount = 0 ∧
    (suiteComputeResults none none none none).allPassed = false :=
  suite_zero_references none none none none (Or.inl rfl) (Or.inl rfl)
    (Or.inl rfl) (Or.inl rfl)

/-- C5: the per-attempt timeout fallback diverges by protocol: with an
unconfigured provider (default timeout 30s) and a null resource-level
timeout, the HTTP and TCP probes resolve the provider default of 30
seconds, but the DB probe resolves a hardcoded 10 seconds and the DNS
probe a hardcoded 5 seconds — contrary to the claimed uniform
provider-default fallback of 30 seconds for all four probes. -/
theorem timeout_default_divergence :
    cfgDefault.httpClientTimeout = 30 * nsPerSecond ∧
    httpResolvedTimeout cfgDefault httpDataW = 30 * nsPerSecond ∧
    tcpResolvedTimeout cfgDefault tcpDataW = 30 * nsPerSecond ∧
    dbResolvedTimeout dbDataW = 10 * nsPerSecond ∧
    dnsResolvedTimeout dnsDataW = 5 * nsPerSecond ∧
    (10 * nsPerSecond : Int) ≠ 30 * nsPerSecond ∧
    (5 * nsPerSecond : Int) ≠ 30 * nsPerSecond := by
  refine ⟨rfl, rfl, rfl, rfl, rfl, by decide, by decide⟩

/-- C9: the resource-level retries value overrides the provider
default only when strictly positive — an explicit 0 and a null value
both fall back to the provider default — and the same rule governs the
retry delay; consequently a TCP probe declaring retries=0 behaves
exactly like one leaving retries unset. -/
theorem retries_override_rule :
    (∀ p : Int, resolveRetries p (some 0) = p ∧ resolveRetries p none = p) ∧
    (∀ p v : Int, 0 < v → resolveRetries p (some v) = v) ∧
    (∀ p : Int, resolveDuration p (some 0) = p ∧ resolveDuration p none = p) ∧
    (∀ p v : Int, 0 < v → resolveDuration p (some v) = v * nsPerSecond) ∧
    (∀ (cfg : TerraProbeClientConfig) (data : TcpTestConfig)
      (dial : Nat → TcpDialAttempt),
      data.retries = some 0 →
      TcpTestResource.runTest cfg data dial =
        TcpTestResource.runTest cfg { data with retries := none } dial) := by
  refine ⟨?_, ?_, ?_, ?_, ?_⟩
  · intro p; exact ⟨rfl, rfl⟩
  · intro p v hv; simp [resolveRetries, hv]
  · intro p; exact ⟨rfl, rfl⟩
  · intro p v hv; simp [resolveDuration, hv]
  · intro cfg data dial h
    unfold TcpTestResource.runTest tcpRun
    rw [h]
    rfl

theorem retries_override_rule_witness :
    resolveRetries 3 (some 0) = 3 ∧ resolveRetries 3 (some 2) = 2 ∧
    resolveDuration 5 (some 0) = 5 ∧ resolveDuration 5 (some 2) = 2 * nsPerSecond ∧
    TcpTestResource.runTest cfgDefault { tcpDataW with retries := some 0 } tcpDialOk =
      TcpTestResource.runTest cfgDefault
        { ({ tcpDataW with retries := some 0 } : TcpTestConfig) with retries := none }
        tcpDialOk :=
  ⟨(retries_override_rule.1 3).1,
   retries_override_rule.2.1 3 2 (by decide),
   (retries_override_rule.2.2.1 5).1,
   retries_override_rule.2.2.2.1 5 2 (by decide),
   retries_override_rule.2.2.2.2 cfgDefault { tcpDataW with retries := some 0 }
     tcpDialOk rfl⟩

/-- C6: configuration errors are classed differently by protocol: an
unsupported DB engine type makes `DbTestResource.runTest` return an
immediate hard error to the caller, before any attempt and without
retrying; an unsupported DNS record type instead makes every lookup
attempt fail, so the DNS probe exhausts all retries+1 attempts and
then records `passed=false` with the lookup-failure message rather
than returning a hard error. -/
theorem config_error_classing :
    (∀ (cfg : TerraProbeClientConfig) (data : DbTestConfig) (attempt : Nat → DbAttempt),
      data.dbType ≠ "mysql" → data.dbType ≠ "postgres" →
      DbTestResource.runTest cfg data attempt =
        Except.error ("unsupported database type: " ++ data.dbType)) ∧
    (∀ (cfg : TerraProbeClientConfig) (data : DnsTestConfig)
      (lookup : Nat → DnsLookupAttempt),
      data.recordType ∉ supportedRecordTypes →
      0 ≤ resolveRetries cfg.retries data.retries →
      ((numAttempts (DnsTestResource.runTest cfg data lookup).1 : Int) =
          resolveRetries cfg.retries data.retries + 1 ∧
        (DnsTestResource.runTest cfg data lookup).2.testPassed = false ∧
        (DnsTestResource.runTest cfg data lookup).2.error =
          "DNS lookup failed: " ++ ("unsupported DNS record type: " ++ data.recordType))) := by
  constructor
  · intro cfg data attempt h1 h2
    have hc : dbConnString data =
        Except.error ("unsupported database type: " ++ data.dbType) := by
      simp [dbConnString, h1, h2]
    simp only [DbTestResource.runTest, hc]
  · intro cfg data lookup hrt hr
    have hall : ∀ j,
        ((fun a => a.lookupErr.isNone) (dnsAttempt data.recordType lookup j)) = false := by
      intro j
      simp [dnsAttempt, hrt]
    obtain ⟨hsucc, hcast⟩ := retries_fuel (resolveRetries cfg.retries data.retries) hr
    have htrace : (DnsTestResource.runTest cfg data lookup).1 = (dnsRun cfg data lookup).1 :=
      dnsRunTest_trace cfg data lookup
    have hnum : numAttempts (dnsRun cfg data lookup).1 =
        (resolveRetries cfg.retries data.retries + 1).toNat := by
      unfold dnsRun
      exact goRetryLoop_allFail_numAttempts (dnsAttempt data.recordType lookup)
        (fun a => a.lookupErr.isNone)
        (resolveDuration cfg.retryDelay data.retryDelay) hall _ 0
    have hout : ((dnsRun cfg data lookup).2).isSome = true := by
      unfold dnsRun
      rw [hsucc]
      exact goRetryLoop_outcome_isSome _ _ _ _ 0
    obtain ⟨a, ha⟩ := Option.isSome_iff_exists.mp hout
    obtain ⟨k, hk⟩ := goRetryLoop_outcome_mem _ _ _ _ _ _ ha
    have herr : a.lookupErr = some ("unsupported DNS record type: " ++ data.recordType) := by
      rw [hk]
      simp [dnsAttempt, hrt]
    have heq := dnsRunTest_eq cfg data lookup a ha
    refine ⟨?_, ?_, ?_⟩
    · rw [htrace, hnum, hcast]
    · rw [heq]
      simp [dnsFinish, herr]
    · rw [heq]
      simp [dnsFinish, herr]

theorem config_error_classing_witness :
    DbTestResource.runTest cfgDefault { dbDataW with dbType := "oracle9" } dbAttemptOk =
      Except.error ("unsupported database type: " ++
        ({ dbDataW with dbType := "oracle9" } : DbTestConfig).dbType) ∧
    ((numAttempts (DnsTestResource.runTest cfgDefault
          { dnsDataW with recordType := "INVALID" } dnsLookupFail).1 : Int) =
        resolveRetries cfgDefault.retries
          ({ dnsDataW with recordType := "INVALID" } : DnsTestConfig).retries + 1 ∧
      (DnsTestResource.runTest cfgDefault { dnsDataW with recordType := "INVALID" }
          dnsLookupFail).2.testPassed = false ∧
      (DnsTestResource.runTest cfgDefault { dnsDataW with recordType := "INVALID" }
          dnsLookupFail).2.error =
        "DNS lookup failed: " ++ ("unsupported DNS record type: " ++
          ({ dnsDataW with recordType := "INVALID" } : DnsTestConfig).recordType)) :=
  ⟨config_error_classing.1 cfgDefault { dbDataW with dbType := "oracle9" } dbAttemptOk
      (by decide) (by decide),
   config_error_classing.2 cfgDefault { dnsDataW with recordType := "INVALID" }
     dnsLookupFail (by decide) (by decide)⟩

/-- C3 counterexample: a TCP invocation whose attempts all fail
records `lastConnectTime = 0`, not the final attempt's measured 7ms
duration as the claim requires. -/
theorem tcp_failure_time_zero_cex :
    (TcpTestResource.runTest cfgDefault tcpDataW tcpDialRefused).2.lastConnectTime = 0 ∧
    (tcpDialRefused 0).connectTime / nsPerMs = 7 ∧
    (0 : Int) ≠ 7 := by
  decide

/-- C3 (amended): the recorded time is the duration of the attempt
that ended the retry loop when that attempt was (transport-)
successful; when the final attempt failed, the DNS probe records that
attempt's duration but the TCP, HTTP and DB probes record zero. -/
theorem elapsed_final_attempt_amended :
    (∀ (cfg : TerraProbeClientConfig) (data : TcpTestConfig)
      (dial : Nat → TcpDialAttempt) (a : TcpDialAttempt),
      (tcpRun cfg data dial).2 = some a →
      (TcpTestResource.runTest cfg data dial).2.lastConnectTime =
        (if a.dialErr = none then a.connectTime / nsPerMs else 0)) ∧
    (∀ (cfg : TerraProbeClientConfig) (data : HttpTestConfig)
      (attempt : Nat → HttpAttempt) (prior : HttpResult) (a : HttpAttempt)
      (tr : List (TraceEvent HttpAttempt)) (res : HttpResult),
      (httpRun cfg data attempt).2 = some a →
      HttpTestResource.runTest cfg data none attempt prior = some (tr, res) →
      res.lastResponseTime = (if a.respErr = none then a.responseTime / nsPerMs else 0)) ∧
    (∀ (cfg : TerraProbeClientConfig) (data : DnsTestConfig)
      (lookup : Nat → DnsLookupAttempt) (a : DnsLookupAttempt),
      (dnsRun cfg data lookup).2 = some a →
      (DnsTestResource.runTest cfg data lookup).2.lastResultTime =
        a.elapsed / nsPerMs) ∧
    (∀ (cfg : TerraProbeClientConfig) (data : DbTestConfig)
      (attempt : Nat → DbAttempt) (a : DbAttempt)
      (tr : List (TraceEvent DbAttempt)) (res : DbResult),
      (data.dbType = "postgres" ∨ data.dbType = "mysql") →
      (dbRun cfg data attempt).2 = some a →
      DbTestResource.runTest cfg data attempt = Except.ok (tr, res) →
      res.lastQueryTime = (if a.failure = none then a.queryTime / nsPerMs else 0)) := by
  refine ⟨?_, ?_, ?_, ?_⟩
  · intro cfg data dial a h
    rw [tcpRunTest_eq cfg data dial a h]
    cases h2 : a.dialErr <;> simp [tcpFinish, h2]
  · intro cfg data attempt prior a tr res h1 h2
    rw [httpRunTest_eq cfg data attempt prior a h1] at h2
    have hres : res = httpFinish data a := by
      injection h2 with h3
      exact (congrArg Prod.snd h3).symm
    subst hres
    cases hr : a.respErr with
    | some e => simp [httpFinish, hr]
    | none =>
      cases hb : a.bodyReadErr with
      | some e => simp [httpFinish, hr, hb]
      | none => simp [httpFinish, hr, hb]
  · intro cfg data lookup a h
    rw [dnsRunTest_eq cfg data lookup a h]
    cases h2 : a.lookupErr <;> simp [dnsFinish, h2]
  · intro cfg data attempt a tr res hdb h1 h2
    obtain ⟨cs, hc⟩ : ∃ cs, dbConnString data = Except.ok cs := by
      rcases hdb with h | h <;> simp [dbConnString, h]
    rw [dbRunTest_eq cfg data attempt cs a hc h1] at h2
    have hres : res = dbFinish a := by
      injection h2 with h3
      exact (congrArg Prod.snd h3).symm
    subst hres
    cases hf : a.failure with
    | some e => simp [dbFinish, hf]
    | none => simp [dbFinish, hf]

theorem elapsed_final_attempt_amended_witness :
    (TcpTestResource.runTest cfgDefault tcpDataW tcpDialOk).2.lastConnectTime =
      (if (tcpDialOk 0).dialErr = none then (tcpDialOk 0).connectTime / nsPerMs else 0) ∧
    (httpFinish httpDataW (httpAttemptOk 0)).lastResponseTime =
      (if (httpAttemptOk 0).respErr = none
        then (httpAttemptOk 0).responseTime / nsPerMs else 0) ∧
    (DnsTestResource.runTest cfgDefault dnsDataW dnsLookupFail).2.lastResultTime =
      (dnsAttempt dnsDataW.recordType dnsLookupFail 3).elapsed / nsPerMs ∧
    (dbFinish (dbAttemptOk 0)).lastQueryTime =
      (if (dbAttemptOk 0).failure = none then (dbAttemptOk 0).queryTime / nsPerMs else 0) :=
  ⟨elapsed_final_attempt_amended.1 cfgDefault tcpDataW tcpDialOk (tcpDialOk 0) rfl,
   elapsed_final_attempt_amended.2.1 cfgDefault httpDataW httpAttemptOk httpPriorW
     (httpAttemptOk 0) (httpRun cfgDefault httpDataW httpAttemptOk).1
     (httpFinish httpDataW (httpAttemptOk 0)) rfl rfl,
   elapsed_final_attempt_amended.2.2.1 cfgDefault dnsDataW dnsLookupFail
     (dnsAttempt dnsDataW.recordType dnsLookupFail 3) (by decide),
   elapsed_final_attempt_amended.2.2.2 cfgDefault dbDataW dbAttemptOk (dbAttemptOk 0)
     (dbRun cfgDefault dbDataW dbAttemptOk).1 (dbFinish (dbAttemptOk 0))
     (Or.inl rfl) rfl rfl⟩

/-- C4 counterexample: with a resolved retries of 1 remaining, a first
attempt whose transport succeeded but whose body read failed ends the
retry loop after exactly one attempt and is recorded as
`passed=false` — contradicting the claim that an attempt stops the
retry loop only when the body was also fully read (i.e. that
transport-successful attempts with body-read failures are retried). -/
theorem http_body_read_no_retry_cex :
    HttpTestResource.runTest cfgDefault { httpDataW with retries := some 1 } none
        httpAttemptBodyFail httpPriorW =
      some ([TraceEvent.attempt 0 (httpAttemptBodyFail 0)],
        { testPassed := false
          error := "Failed to read response body: unexpected EOF"
          lastResponseTime := 25
          lastStatusCode := 200
          lastResponseBody := "" }) ∧
    numAttempts [TraceEvent.attempt 0 (httpAttemptBodyFail 0)] = 1 ∧
    (httpAttemptBodyFail 0).bodyReadErr = some "unexpected EOF" ∧
    resolveRetries cfgDefault.retries (some 1) = 1 := by
  decide

/-- C4 (amended): an HTTP attempt stops the retry loop iff its
transport did not error: when the first attempt's transport succeeds
the probe makes exactly that one attempt regardless of the body-read
or assertion outcomes; a body-read failure is never retried and is
recorded once as `passed=false`; and in every run all non-final
attempts failed at the transport level (assertions are evaluated once,
after a transport-successful attempt whose body was fully read). -/
theorem http_retry_transport_only :
    (∀ (cfg : TerraProbeClientConfig) (data : HttpTestConfig)
      (attempt : Nat → HttpAttempt) (prior : HttpResult),
      0 ≤ resolveRetries cfg.retries data.retries →
      (attempt 0).respErr = none →
      HttpTestResource.runTest cfg data none attempt prior =
        some ([TraceEvent.attempt 0 (attempt 0)], httpFinish data (attempt 0))) ∧
    (∀ (data : HttpTestConfig) (a : HttpAttempt) (e : String),
      a.respErr = none → a.bodyReadErr = some e →
      (httpFinish data a).testPassed = false ∧
      (httpFinish data a).error = "Failed to read response body: " ++ e) ∧
    (∀ (cfg : TerraProbeClientConfig) (data : HttpTestConfig)
      (attempt : Nat → HttpAttempt) (prior : HttpResult)
      (tr : List (TraceEvent HttpAttempt)) (res : HttpResult),
      HttpTestResource.runTest cfg data none attempt prior = some (tr, res) →
      RetryTrace (fun a => a.respErr.isNone)
        (resolveDuration cfg.retryDelay data.retryDelay) tr) := by
  refine ⟨?_, ?_, ?_⟩
  · intro cfg data attempt prior hr h0
    obtain ⟨hsucc, -⟩ := retries_fuel (resolveRetries cfg.retries data.retries) hr
    have hok : ((fun a => a.respErr.isNone) (attempt 0)) = true := by simp [h0]
    have hloop := goRetryLoop_succ_ok attempt (fun a => a.respErr.isNone)
      (resolveDuration cfg.retryDelay data.retryDelay) 0
      ((resolveRetries cfg.retries data.retries + 1).toNat - 1) hok
    have hrun : httpRun cfg data attempt =
        ([TraceEvent.attempt 0 (attempt 0)], some (attempt 0)) := by
      unfold httpRun
      rw [hsucc]
      exact hloop
    have heq := httpRunTest_eq cfg data attempt prior (attempt 0)
      (by rw [hrun])
    rw [heq, hrun]
  · intro data a e hr hb
    constructor <;> simp [httpFinish, hr, hb]
  · intro cfg data attempt prior tr res h
    cases hout : (httpRun cfg data attempt).2 with
    | none =>
      rw [httpRunTest_none cfg data attempt prior hout] at h
      exact absurd h (by simp)
    | some a =>
      rw [httpRunTest_eq cfg data attempt prior a hout] at h
      injection h with h3
      have htr : (httpRun cfg data attempt).1 = tr := congrArg Prod.fst h3
      have hfuel : (resolveRetries cfg.retries data.retries + 1).toNat ≠ 0 := by
        intro h0
        unfold httpRun at hout
        rw [h0] at hout
        simp [goRetryLoop_zero] at hout
      obtain ⟨m, hm⟩ := Nat.exists_eq_succ_of_ne_zero hfuel
      rw [← htr]
      unfold httpRun
      rw [hm]
      exact goRetryLoop_retryTrace attempt (fun a => a.respErr.isNone)
        (resolveDuration cfg.retryDelay data.retryDelay) m 0

theorem http_retry_transport_only_witness :
    HttpTestResource.runTest cfgDefault { httpDataW with retries := some 1 } none
        httpAttemptBodyFail httpPriorW =
      some ([TraceEvent.attempt 0 (httpAttemptBodyFail 0)],
        httpFinish { httpDataW with retries := some 1 } (httpAttemptBodyFail 0)) ∧
    ((httpFinish httpDataW (httpAttemptBodyFail 0)).testPassed = false ∧
      (httpFinish httpDataW (httpAttemptBodyFail 0)).error =
        "Failed to read response body: " ++ "unexpected EOF") ∧
    RetryTrace (fun a => a.respErr.isNone)
      (resolveDuration cfgDefault.retryDelay httpDataW.retryDelay)
      [TraceEvent.attempt 0 (httpAttemptOk 0)] :=
  ⟨http_retry_transport_only.1 cfgDefault { httpDataW with retries := some 1 }
      httpAttemptBodyFail httpPriorW (by decide) rfl,
   http_retry_transport_only.2.1 httpDataW (httpAttemptBodyFail 0) "unexpected EOF"
     rfl rfl,
   http_retry_transport_only.2.2 cfgDefault httpDataW httpAttemptOk httpPriorW
     [TraceEvent.attempt 0 (httpAttemptOk 0)] (httpFinish httpDataW (httpAttemptOk 0))
     rfl⟩

/-- C7: for a transport-successful, fully-read HTTP attempt the
status-code and substring assertions are evaluated independently:
passed=true iff neither configured assertion fails, where the status
check always applies (against `expect_status_code`, defaulting to 200)
and the substring check applies only when a nonempty
`expect_contains` is configured; each firing assertion contributes its
own descriptive clause and the clauses concatenate (status clause
first); the error text is empty exactly when the probe passed. -/
theorem http_assertions_independent :
    ∀ (cfg : TerraProbeClientConfig) (data : HttpTestConfig)
      (attempt : Nat → HttpAttempt) (prior : HttpResult) (a : HttpAttempt)
      (tr : List (TraceEvent HttpAttempt)) (res : HttpResult),
      (httpRun cfg data attempt).2 = some a →
      HttpTestResource.runTest cfg data none attempt prior = some (tr, res) →
      a.respErr = none → a.bodyReadErr = none →
      ((res.testPassed = true ↔
          (httpStatusFail data a = false ∧ httpContainsFail data a = false)) ∧
        (httpStatusFail data a = false ↔ a.status = httpExpectedStatus data) ∧
        (httpContainsFail data a = true ↔
          ∃ s, data.expectContains = some s ∧ s ≠ "" ∧ strContains a.body s = false) ∧
        (res.testPassed = false →
          res.error = httpStatusClause data a ++ httpContainsClause data a) ∧
        (res.testPassed = true → res.error = "") ∧
        (httpStatusFail data a = true →
          httpStatusClause data a =
            "Expected status code " ++ toString (httpExpectedStatus data) ++
              " but got " ++ toString a.status ++ ". ") ∧
        (∀ s, data.expectContains = some s → httpContainsFail data a = true →
          httpContainsClause data a =
            "Response body does not contain \x27" ++ s ++ "\x27. ")) := by
  intro cfg data attempt prior a tr res h1 h2 hr hb
  rw [httpRunTest_eq cfg data attempt prior a h1] at h2
  injection h2 with h3
  have hres : res = httpFinish data a := (congrArg Prod.snd h3).symm
  subst hres
  have hfin : httpFinish data a =
      { testPassed := !httpStatusFail data a && !httpContainsFail data a
        error :=
          if !httpStatusFail data a && !httpContainsFail data a then ""
          else httpStatusClause data a ++ httpContainsClause data a
        lastResponseTime := a.responseTime / nsPerMs
        lastStatusCode := a.status
        lastResponseBody := a.body } := by
    simp [httpFinish, hr, hb]
  refine ⟨?_, ?_, ?_, ?_, ?_, ?_, ?_⟩
  · rw [hfin]
    cases hsf : httpStatusFail data a <;> cases hcf : httpContainsFail data a <;> simp
  · simp [httpStatusFail]
  · cases hec : data.expectContains with
    | none => simp [httpContainsFail, hec]
    | some s => simp [httpContainsFail, hec]
  · rw [hfin]
    cases hsf : httpStatusFail data a <;> cases hcf : httpContainsFail data a <;> simp
  · rw [hfin]
    cases hsf : httpStatusFail data a <;> cases hcf : httpContainsFail data a <;> simp
  · intro hs
    simp [httpStatusClause, hs]
  · intro s hs hcf
    have hcond := hcf
    simp [httpContainsFail, hs] at hcond
    simp [httpContainsClause, hs, hcond.1, hcond.2]

theorem http_assertions_independent_witness :
    ((httpFinish { httpDataW with expectStatusCode := some 404 }
          (httpAttemptOk 0)).testPassed = true ↔
      (httpStatusFail { httpDataW with expectStatusCode := some 404 }
          (httpAttemptOk 0) = false ∧
        httpContainsFail { httpDataW with expectStatusCode := some 404 }
          (httpAttemptOk 0) = false)) ∧
    ((httpFinish { httpDataW with expectStatusCode := some 404 }
          (httpAttemptOk 0)).testPassed = false →
      (httpFinish { httpDataW with expectStatusCode := some 404 }
          (httpAttemptOk 0)).error =
        httpStatusClause { httpDataW with expectStatusCode := some 404 }
            (httpAttemptOk 0) ++
          httpContainsClause { httpDataW with expectStatusCode := some 404 }
            (httpAttemptOk 0)) := by
  have h := http_assertions_independent cfgDefault
    { httpDataW with expectStatusCode := some 404 } httpAttemptOk httpPriorW
    (httpAttemptOk 0)
    (httpRun cfgDefault { httpDataW with expectStatusCode := some 404 } httpAttemptOk).1
    (httpFinish { httpDataW with expectStatusCode := some 404 } (httpAttemptOk 0))
    rfl rfl rfl rfl
  exact ⟨h.1, h.2.2.2.1⟩

/-- C8 counterexample: when no expected value is configured, a DNS
lookup that returns without error but with an empty record list is
recorded as passed=true — contradicting the claim that `passed` then
holds exactly when the lookup succeeded with a non-empty result
list. -/
theorem dns_empty_result_passes_cex :
    (DnsTestResource.runTest cfgDefault dnsDataW dnsLookupEmptyOk).2.testPassed = true ∧
    (dnsLookupEmptyOk 0).lookupErr = none ∧
    (dnsLookupEmptyOk 0).records = [] ∧
    dnsDataW.expectResult = none := by
  decide

/-- C8 (amended): for a DNS invocation whose final lookup completed
without error: when a nonempty expected value is configured,
passed=true iff at least one returned record equals it exactly;
otherwise (expected value null or empty) passed=true whenever the
lookup itself succeeded, regardless of whether the result list is
empty. -/
theorem dns_expected_value_amended :
    ∀ (cfg : TerraProbeClientConfig) (data : DnsTestConfig)
      (lookup : Nat → DnsLookupAttempt) (a : DnsLookupAttempt),
      (dnsRun cfg data lookup).2 = some a →
      a.lookupErr = none →
      ((∀ s, data.expectResult = some s → s ≠ "" →
          ((DnsTestResource.runTest cfg data lookup).2.testPassed = true ↔
            s ∈ a.records)) ∧
        ((data.expectResult = none ∨ data.expectResult = some "") →
          (DnsTestResource.runTest cfg data lookup).2.testPassed = true)) := by
  intro cfg data lookup a h he
  rw [dnsRunTest_eq cfg data lookup a h]
  constructor
  · intro s hs hne
    simp [dnsFinish, he, hs, hne]
    by_cases hm : s ∈ a.records <;> simp [hm]
  · rintro (hs | hs) <;> simp [dnsFinish, he, hs]

theorem dns_expected_value_amended_witness :
    ((DnsTestResource.runTest cfgDefault
          { dnsDataW with expectResult := some "93.184.216.34" }
          dnsLookupOk).2.testPassed = true ↔
      "93.184.216.34" ∈ (dnsLookupOk 0).records) ∧
    (DnsTestResource.runTest cfgDefault dnsDataW dnsLookupOk).2.testPassed = true :=
  ⟨(dns_expected_value_amended cfgDefault
        { dnsDataW with expectResult := some "93.184.216.34" } dnsLookupOk
        (dnsLookupOk 0) rfl rfl).1 "93.184.216.34" rfl (by decide),
   (dns_expected_value_amended cfgDefault dnsDataW dnsLookupOk (dnsLookupOk 0)
        rfl rfl).2 (Or.inl rfl)⟩

/-- The retry policy of one probe loop at fuel `(r+1).toNat` for a
nonnegative resolved retries `r`: at most `r+1` attempts, exactly one
attempt when the first succeeds, and a well-formed retry trace. -/
theorem goRetryLoop_policy {α : Type} (act : Nat → α) (ok : α → Bool) (delay : Int)
    (r : Int) (hr : 0 ≤ r) :
    ((numAttempts (goRetryLoop act ok delay 0 (r + 1).toNat).1 : Int) ≤ r + 1) ∧
    (ok (act 0) = true →
      (goRetryLoop act ok delay 0 (r + 1).toNat).1 = [TraceEvent.attempt 0 (act 0)]) ∧
    RetryTrace ok delay (goRetryLoop act ok delay 0 (r + 1).toNat).1 := by
  obtain ⟨hsucc, hcast⟩ := retries_fuel r hr
  refine ⟨?_, ?_, ?_⟩
  · have h := numAttempts_goRetryLoop_le act ok delay ((r + 1).toNat) 0
    calc (numAttempts (goRetryLoop act ok delay 0 (r + 1).toNat).1 : Int)
        ≤ (((r + 1).toNat : Nat) : Int) := by exact_mod_cast h
      _ = r + 1 := hcast
  · intro h
    rw [hsucc]
    exact goRetryLoop_first_ok act ok delay 0 _ h
  · rw [hsucc]
    exact goRetryLoop_retryTrace act ok delay _ 0

/-- C2: every probe (TCP, HTTP, DNS, DB) with a nonnegative resolved
retries `r` executes its protocol action at most `r+1` times, makes
exactly one attempt when the first attempt succeeds, sleeps the
resolved retry delay between a failed attempt and the next attempt,
and never sleeps after the final attempt (its loop trace is a
well-formed retry trace). -/
theorem retry_policy_bounds :
    (∀ (cfg : TerraProbeClientConfig) (data : TcpTestConfig)
      (dial : Nat → TcpDialAttempt),
      0 ≤ resolveRetries cfg.retries data.retries →
      ((numAttempts (TcpTestResource.runTest cfg data dial).1 : Int) ≤
          resolveRetries cfg.retries data.retries + 1 ∧
        ((dial 0).dialErr = none →
          (TcpTestResource.runTest cfg data dial).1 =
            [TraceEvent.attempt 0 (dial 0)]) ∧
        RetryTrace (fun a => a.dialErr.isNone)
          (resolveDuration cfg.retryDelay data.retryDelay)
          (TcpTestResource.runTest cfg data dial).1)) ∧
    (∀ (cfg : TerraProbeClientConfig) (data : HttpTestConfig)
      (attempt : Nat → HttpAttempt) (prior : HttpResult),
      0 ≤ resolveRetries cfg.retries data.retries →
      ∀ (tr : List (TraceEvent HttpAttempt)) (res : HttpResult),
      HttpTestResource.runTest cfg data none attempt prior = some (tr, res) →
      ((numAttempts tr : Int) ≤ resolveRetries cfg.retries data.retries + 1 ∧
        ((attempt 0).respErr = none → tr = [TraceEvent.attempt 0 (attempt 0)]) ∧
        RetryTrace (fun a => a.respErr.isNone)
          (resolveDuration cfg.retryDelay data.retryDelay) tr)) ∧
    (∀ (cfg : TerraProbeClientConfig) (data : DnsTestConfig)
      (lookup : Nat → DnsLookupAttempt),
      0 ≤ resolveRetries cfg.retries data.retries →
      ((numAttempts (DnsTestResource.runTest cfg data lookup).1 : Int) ≤
          resolveRetries cfg.retries data.retries + 1 ∧
        ((dnsAttempt data.recordType lookup 0).lookupErr = none →
          (DnsTestResource.runTest cfg data lookup).1 =
            [TraceEvent.attempt 0 (dnsAttempt data.recordType lookup 0)]) ∧
        RetryTrace (fun a => a.lookupErr.isNone)
          (resolveDuration cfg.retryDelay data.retryDelay)
          (DnsTestResource.runTest cfg data lookup).1)) ∧
    (∀ (cfg : TerraProbeClientConfig) (data : DbTestConfig)
      (attempt : Nat → DbAttempt),
      0 ≤ resolveRetries cfg.retries data.retries →
      ∀ (tr : List (TraceEvent DbAttempt)) (res : DbResult),
      DbTestResource.runTest cfg data attempt = Except.ok (tr, res) →
      ((numAttempts tr : Int) ≤ resolveRetries cfg.retries data.retries + 1 ∧
        ((attempt 0).failure = none → tr = [TraceEvent.attempt 0 (attempt 0)]) ∧
        RetryTrace (fun a => a.failure.isNone)
          (resolveDuration cfg.retryDelay data.retryDelay) tr)) := by
  refine ⟨?_, ?_, ?_, ?_⟩
  · intro cfg data dial hr
    have hp := goRetryLoop_policy dial (fun a => a.dialErr.isNone)
      (resolveDuration cfg.retryDelay data.retryDelay)
      (resolveRetries cfg.retries data.retries) hr
    rw [tcpRunTest_trace]
    exact ⟨hp.1, fun h => hp.2.1 (by simp [h]), hp.2.2⟩
  · intro cfg data attempt prior hr tr res h
    have htr : tr = (httpRun cfg data attempt).1 := by
      cases hout : (httpRun cfg data attempt).2 with
      | none =>
        rw [httpRunTest_none cfg data attempt prior hout] at h
        exact absurd h (by simp)
      | some a =>
        rw [httpRunTest_eq cfg data attempt prior a hout] at h
        injection h with h3
        exact (congrArg Prod.fst h3).symm
    subst htr
    have hp := goRetryLoop_policy attempt (fun a => a.respErr.isNone)
      (resolveDuration cfg.retryDelay data.retryDelay)
      (resolveRetries cfg.retries data.retries) hr
    exact ⟨hp.1, fun h0 => hp.2.1 (by simp [h0]), hp.2.2⟩
  · intro cfg data lookup hr
    have hp := goRetryLoop_policy (dnsAttempt data.recordType lookup)
      (fun a => a.lookupErr.isNone)
      (resolveDuration cfg.retryDelay data.retryDelay)
      (resolveRetries cfg.retries data.retries) hr
    rw [dnsRunTest_trace]
    exact ⟨hp.1, fun h => hp.2.1 (by simp [h]), hp.2.2⟩
  · intro cfg data attempt hr tr res h
    have htr : tr = (dbRun cfg data attempt).1 := by
      cases hconn : dbConnString data with
      | error e =>
        rw [show DbTestResource.runTest cfg data attempt = Except.error e by
          simp only [DbTestResource.runTest, hconn]] at h
        exact absurd h (by simp)
      | ok cs =>
        simp only [DbTestResource.runTest, hconn] at h
        injection h with h3
        exact (congrArg Prod.fst h3).symm
    subst htr
    have hp := goRetryLoop_policy attempt (fun a => a.failure.isNone)
      (resolveDuration cfg.retryDelay data.retryDelay)
      (resolveRetries cfg.retries data.retries) hr
    exact ⟨hp.1, fun h0 => hp.2.1 (by simp [h0]), hp.2.2⟩

theorem retry_policy_bounds_witness :
    RetryTrace (fun a => a.dialErr.isNone)
      (resolveDuration cfgDefault.retryDelay tcpDataW.retryDelay)
      (TcpTestResource.runTest cfgDefault tcpDataW tcpDialOk).1 ∧
    RetryTrace (fun a => a.respErr.isNone)
      (resolveDuration cfgDefault.retryDelay httpDataW.retryDelay)
      (httpRun cfgDefault httpDataW httpAttemptOk).1 ∧
    RetryTrace (fun a => a.lookupErr.isNone)
      (resolveDuration cfgDefault.retryDelay dnsDataW.retryDelay)
      (DnsTestResource.runTest cfgDefault dnsDataW dnsLookupOk).1 ∧
    RetryTrace (fun a => a.failure.isNone)
      (resolveDuration cfgDefault.retryDelay dbDataW.retryDelay)
      (dbRun cfgDefault dbDataW dbAttemptOk).1 :=
  ⟨(retry_policy_bounds.1 cfgDefault tcpDataW tcpDialOk (by decide)).2.2,
   (retry_policy_bounds.2.1 cfgDefault httpDataW httpAttemptOk httpPriorW (by decide)
      (httpRun cfgDefault httpDataW httpAttemptOk).1
      (httpFinish httpDataW (httpAttemptOk 0)) rfl).2.2,
   (retry_policy_bounds.2.2.1 cfgDefault dnsDataW dnsLookupOk (by decide)).2.2,
   (retry_policy_bounds.2.2.2 cfgDefault dbDataW dbAttemptOk (by decide)
      (dbRun cfgDefault dbDataW dbAttemptOk).1 (dbFinish (dbAttemptOk 0)) rfl).2.2⟩

end TerraProbe
